import Mathlib

/-!
# Verification of the revdata delegated-access core

Shallow embedding of the scoped, capacity-limited delegated-access mechanism
of the revdata repository: the authorized review page
(`src/frontend/src/pages/LoginPage.tsx`, component `AuthReviewPage`), the
dataset review page navigation (`src/frontend/src/pages/MembersPage.tsx`,
component `ReviewPageV2`), the HTTP client layer
(`src/frontend/src/services/api.ts`) and the grant-creation modal
(`src/frontend/src/components/AuthCodeModal.tsx`).  The backend session
capacity manager is not part of the sources; where a property depends on it,
the component is modelled from the specification and marked as such.
-/

namespace Revdata

/-- The session object returned by `authCodeApi.verify` and cached in
`sessionStorage` (interface `AuthSession`, LoginPage.tsx 229-237).
`item_ids` is optional: absent (or empty) for range grants.  JS numbers are
modelled as `Int`. -/
structure AuthSession where
  dataset_id : Int
  item_start : Int
  item_end : Int
  item_ids : Option (List Int)
  permission : String
  session_token : String
  deriving Repr, DecidableEq

/-- Does the session use the id-set representation?  The frontend test is
`session.item_ids && session.item_ids.length > 0` (LoginPage.tsx 278, 303,
348). -/
def AuthSession.usesIdSet (s : AuthSession) : Bool :=
  match s.item_ids with
  | some ids => decide (0 < ids.length)
  | none => false

/-- The size of the session's selection: the number of ids for an id-set
grant, `item_end - item_start + 1` for a range grant.  This is the spec's
`count(selection)` applied to the session. -/
def selectionSize (s : AuthSession) : Int :=
  match s.item_ids with
  | some ids => if 0 < ids.length then (ids.length : Int) else s.item_end - s.item_start + 1
  | none => s.item_end - s.item_start + 1

/-- The value `setTotalItems` receives in the if/else at LoginPage.tsx
278-282 inside `AuthReviewPage.verify`. -/
def verifyBranchTotal (s : AuthSession) : Int :=
  match s.item_ids with
  | some ids => if 0 < ids.length then (ids.length : Int) else s.item_end - s.item_start + 1
  | none => s.item_end - s.item_start + 1

/-- The sequence of `setTotalItems` calls performed by
`AuthReviewPage.verify` on a valid response (LoginPage.tsx 278-283): the
if/else sets the branch value, then line 283 unconditionally calls
`setTotalItems(res.data.item_end - res.data.item_start + 1)` again. -/
def verifySetTotalCalls (s : AuthSession) : List Int :=
  [verifyBranchTotal s, s.item_end - s.item_start + 1]

/-- The `totalItems` state after `AuthReviewPage.verify` succeeds: with
React state, the last `setTotalItems` call wins. -/
def verifyTotalItems (s : AuthSession) : Int :=
  ((verifySetTotalCalls s).getLast?).getD 0

/-- The `totalItems` state set by the cached-session branch
(LoginPage.tsx 303-307): a single if/else with no trailing overwrite. -/
def cachedTotalItems (s : AuthSession) : Int :=
  match s.item_ids with
  | some ids => if 0 < ids.length then (ids.length : Int) else s.item_end - s.item_start + 1
  | none => s.item_end - s.item_start + 1

/-- An id-set session as `AuthCodeModal.handleCreate` produces the grant
(AuthCodeModal.tsx 114-128 stores `item_start = item_end = 0` alongside the
id list): five ids covering five logical items. -/
def idSetSession5 : AuthSession :=
  { dataset_id := 1
    item_start := 0
    item_end := 0
    item_ids := some [101, 102, 103, 104, 105]
    permission := "edit"
    session_token := "tok" }

/-- A range session over logical positions 5..9 (five items). -/
def rangeSession5 : AuthSession :=
  { dataset_id := 1
    item_start := 5
    item_end := 9
    item_ids := none
    permission := "edit"
    session_token := "tok" }

end Revdata

namespace Revdata

/-- A request issued by `AuthReviewPage.fetchItem` to retrieve one item:
either `publicItemsApi.get(itemId, token)` or
`publicItemsApi.getBySeq(datasetId, seqNum, token)` (api.ts 178-185). -/
inductive ItemRequest where
  | byId (itemId : Int) (token : String)
  | bySeq (datasetId : Int) (seqNum : Int) (token : String)
  deriving Repr, DecidableEq

/-- `AuthReviewPage.fetchItem` (LoginPage.tsx 341-354): for an id-set
session it reads `session.item_ids[index - 1]` and fetches by id; otherwise
it computes `seqNum = session.item_start + index - 1` and fetches by
sequence number.  The `Option` models the JS array indexing
(`none` corresponds to reading past the array). -/
def fetchItemRequest (s : AuthSession) (index : Nat) : Option ItemRequest :=
  match s.item_ids with
  | some ids =>
    if 0 < ids.length then
      (ids.get? (index - 1)).map (fun itemId => ItemRequest.byId itemId s.session_token)
    else
      some (ItemRequest.bySeq s.dataset_id (s.item_start + (index : Int) - 1) s.session_token)
  | none =>
    some (ItemRequest.bySeq s.dataset_id (s.item_start + (index : Int) - 1) s.session_token)

/-- The behavior the specification assigns to position `p`: the item at
logical position `item_start + p - 1` for a range selection, the item whose
id is the `p`-th entry of the id list for an id-set selection (spec §4.1,
`resolve`).  Stated from the spec's words, to be compared with
`fetchItemRequest`. -/
def specResolveRequest (s : AuthSession) (p : Nat) : Option ItemRequest :=
  match s.item_ids with
  | some ids =>
    if 0 < ids.length then
      some (ItemRequest.byId (ids.getD (p - 1) 0) s.session_token)
    else
      some (ItemRequest.bySeq s.dataset_id (s.item_start + (p : Int) - 1) s.session_token)
  | none =>
    some (ItemRequest.bySeq s.dataset_id (s.item_start + (p : Int) - 1) s.session_token)

end Revdata

namespace Revdata

/-- C2: the claim asserts the count equals the selection size on both
paths.  On the fresh-verify path for an id-set grant the stray line 283
overwrites the id-count with the range formula. -/
theorem verify_total_overwritten_for_id_set :
    verifyTotalItems idSetSession5 = 1 ∧
    cachedTotalItems idSetSession5 = 5 ∧
    selectionSize idSetSession5 = 5 ∧
    verifyBranchTotal idSetSession5 = 5 := by
  decide

end Revdata

namespace Revdata

/-- C3: for every session and in-range position `p`, `fetchItem` issues
exactly the request the spec's `resolve` prescribes: by sequence number
`item_start + p - 1` for a range selection, by the `p`-th id for an id-set
selection. -/
theorem fetchItem_matches_spec_resolve (s : AuthSession) (p : Nat)
    (h1 : 1 ≤ p) (h2 : (p : Int) ≤ selectionSize s) :
    fetchItemRequest s p = specResolveRequest s p := by
  unfold fetchItemRequest specResolveRequest
  cases hids : s.item_ids with
  | none => rfl
  | some ids =>
    by_cases hlen : 0 < ids.length
    · have hsz : selectionSize s = (ids.length : Int) := by
        unfold selectionSize
        rw [hids]
        simp [hlen]
      have hple : p ≤ ids.length := by
        rw [hsz] at h2
        exact_mod_cast h2
      have hlt : p - 1 < ids.length := by omega
      simp only [if_pos hlen, List.get?_eq_getElem?, List.getElem?_eq_getElem hlt,
        List.getD_eq_getElem?_getD, Option.getD_some]
      rfl
    · simp [hlen]

/-- Witness for C3 at the concrete id-set session covering five items,
position 3. -/
theorem fetchItem_matches_spec_resolve_witness :
    1 ≤ 3 ∧ ((3 : Nat) : Int) ≤ selectionSize idSetSession5 ∧
    fetchItemRequest idSetSession5 3 = specResolveRequest idSetSession5 3 :=
  ⟨by decide, by decide, fetchItem_matches_spec_resolve idSetSession5 3 (by decide) (by decide)⟩

end Revdata

namespace Revdata

/-- The outcome of `ReviewPageV2.goToSeq` when it runs (MembersPage.tsx
586-597): either fetch the requested position or warn that it is out of
range. -/
inductive SeqNavAction where
  | fetch (seq : Int)
  | outOfRangeWarning
  deriving Repr, DecidableEq

/-- `ReviewPageV2.goToSeq` (MembersPage.tsx 586-597): returns early while a
field is being edited; fetches `seq` iff `seq >= 1 && seq <= totalItems`,
otherwise shows the out-of-range warning. -/
def goToSeq (editingField : Option String) (totalItems : Int) (seq : Int) :
    Option SeqNavAction :=
  if editingField.isSome then none
  else if 1 ≤ seq ∧ seq ≤ totalItems then some (SeqNavAction.fetch seq)
  else some SeqNavAction.outOfRangeWarning

/-- `AuthReviewPage.goPrev` (LoginPage.tsx 437-439): fetches
`currentIndex - 1` only when `currentIndex > 1`; otherwise nothing. -/
def authGoPrev (currentIndex : Int) : Option Int :=
  if 1 < currentIndex then some (currentIndex - 1) else none

/-- The outcome of `AuthReviewPage.goNext` (LoginPage.tsx 441-447). -/
inductive NextAction where
  | fetchNext (index : Int)
  | markCompleted
  deriving Repr, DecidableEq

/-- `AuthReviewPage.goNext`: fetches `currentIndex + 1` when
`currentIndex < totalItems`, else flips the completed flag (no fetch). -/
def authGoNext (currentIndex totalItems : Int) : NextAction :=
  if currentIndex < totalItems then NextAction.fetchNext (currentIndex + 1)
  else NextAction.markCompleted

/-- C6: position 0 or any position beyond the count is rejected with the
boundary warning and no fetch; a fetch, when it happens, is always at the
requested position (never clamped); the prev/next arrows never step outside
`1..totalItems`. -/
theorem out_of_range_rejected_never_clamped (total seq : Int)
    (hbad : seq < 1 ∨ total < seq) :
    goToSeq none total seq = some SeqNavAction.outOfRangeWarning ∧
    (∀ q, goToSeq none total seq ≠ some (SeqNavAction.fetch q)) ∧
    (∀ s q, goToSeq none total s = some (SeqNavAction.fetch q) →
      q = s ∧ 1 ≤ s ∧ s ≤ total) ∧
    authGoPrev 1 = none ∧
    authGoNext total total = NextAction.markCompleted := by
  refine ⟨?_, ?_, ?_, ?_, ?_⟩
  · unfold goToSeq
    have : ¬ (1 ≤ seq ∧ seq ≤ total) := by omega
    simp [this]
  · intro q
    unfold goToSeq
    have : ¬ (1 ≤ seq ∧ seq ≤ total) := by omega
    simp [this]
  · intro s q h
    unfold goToSeq at h
    by_cases hin : 1 ≤ s ∧ s ≤ total
    · simp [hin] at h
      exact ⟨h.symm, hin.1, hin.2⟩
    · simp [hin] at h
  · unfold authGoPrev
    simp
  · unfold authGoNext
    simp

/-- Witness for C6: a selection of 3 items rejects position 0. -/
theorem out_of_range_rejected_never_clamped_witness :
    ((0 : Int) < 1 ∨ (3 : Int) < 0) ∧
    goToSeq none 3 0 = some SeqNavAction.outOfRangeWarning :=
  ⟨Or.inl (by decide),
    (out_of_range_rejected_never_clamped 3 0 (Or.inl (by decide))).1⟩

end Revdata

namespace Revdata

/-- An item record as the review-item subsystem exposes it (spec §3
ReviewItem; the fields read by `ReviewPageV2`). -/
structure ReviewItem where
  id : Int
  seq_num : Int
  status : String
  is_marked : Bool
  deriving Repr, DecidableEq

/-- The filter applied by the items list endpoint for the
`status_filter` and `is_marked` request parameters (api.ts 96-99). -/
def matchesFilters (statusFilter : Option String) (isMarked : Option Bool)
    (it : ReviewItem) : Bool :=
  (match statusFilter with
   | some st => it.status == st
   | none => true) &&
  (match isMarked with
   | some m => it.is_marked == m
   | none => true)

/-- Modelled from the spec: the backend handler for
`GET /items/dataset/...` (reached through `itemsApi.list`, api.ts 96-99) is
not under `src/`.  Per spec §4.3, `firstMatching` is a linear scan in
position order returning the first matching item, and per §6 the item store
lists items ordered by logical position; so with `page=1, page_size=1` the
endpoint yields the first matching item of the position-ordered dataset.
`itemsApi.list` itself accepts no task parameter, so the sixth `taskId`
argument the `ReviewPageV2` callers pass (MembersPage.tsx 603-610, 641-648,
680-687) is dropped and the scan is always dataset-wide. -/
def itemsListFirst (dataset : List ReviewItem) (statusFilter : Option String)
    (isMarked : Option Bool) : Option ReviewItem :=
  dataset.find? (matchesFilters statusFilter isMarked)

/-- The selection-carrying fields of a review task as `ReviewPageV2` reads
them (`task.item_ids`, `task.item_start`). -/
structure ReviewTask where
  item_start : Int
  item_end : Int
  item_ids : Option (List Int)
  deriving Repr, DecidableEq

/-- Outcome of a `ReviewPageV2` jump operation: fetch a position, tell the
user id-set (discrete) tasks are unsupported, or tell the user no item
matched. -/
inductive NavResult where
  | fetchAt (index : Int)
  | unsupportedIdSet
  | noneFound
  deriving Repr, DecidableEq

/-- `ReviewPageV2.goToNextPending` (MembersPage.tsx 599-634): asks the list
endpoint for the first pending item; in task mode an id-set task gets the
"unsupported" message, a range task jumps to
`item.seq_num - task.item_start + 1`; without a task it jumps to
`item.seq_num`. -/
def goToNextPending (dataset : List ReviewItem) (task : Option ReviewTask) :
    NavResult :=
  match itemsListFirst dataset (some "pending") none with
  | some item =>
    match task with
    | some t =>
      match t.item_ids with
      | some _ => NavResult.unsupportedIdSet
      | none => NavResult.fetchAt (item.seq_num - t.item_start + 1)
    | none => NavResult.fetchAt item.seq_num
  | none => NavResult.noneFound

/-- `ReviewPageV2.goToStatus` (MembersPage.tsx 637-673): same shape as
`goToNextPending` with the requested status as the filter. -/
def goToStatus (dataset : List ReviewItem) (task : Option ReviewTask)
    (status : String) : NavResult :=
  match itemsListFirst dataset (some status) none with
  | some item =>
    match task with
    | some t =>
      match t.item_ids with
      | some _ => NavResult.unsupportedIdSet
      | none => NavResult.fetchAt (item.seq_num - t.item_start + 1)
    | none => NavResult.fetchAt item.seq_num
  | none => NavResult.noneFound

/-- `ReviewPageV2.goToMarked` (MembersPage.tsx 676-706): same shape with
the `is_marked` filter. -/
def goToMarked (dataset : List ReviewItem) (task : Option ReviewTask) :
    NavResult :=
  match itemsListFirst dataset none (some true) with
  | some item =>
    match task with
    | some t =>
      match t.item_ids with
      | some _ => NavResult.unsupportedIdSet
      | none => NavResult.fetchAt (item.seq_num - t.item_start + 1)
    | none => NavResult.fetchAt item.seq_num
  | none => NavResult.noneFound

/-- Dataset for the C4 counterexample: item at position 1 pending, position
2 approved and marked, position 3 approved. -/
def dsNav : List ReviewItem :=
  [⟨21, 1, "pending", false⟩, ⟨22, 2, "approved", true⟩, ⟨23, 3, "approved", false⟩]

/-- A range task over positions 2..3 of `dsNav`. -/
def rangeTaskNav : ReviewTask := ⟨2, 3, none⟩

/-- An id-set task over the very same two items of `dsNav`. -/
def idSetTaskNav : ReviewTask := ⟨2, 3, some [22, 23]⟩

/-- C4 counterexample: over the same two logical items, the range task
navigates while the id-set task only gets the "unsupported" message, for
the status jump, the marked jump and the next-pending jump alike. -/
theorem idset_navigation_differs_from_range :
    goToStatus dsNav (some rangeTaskNav) "approved" = NavResult.fetchAt 1 ∧
    goToStatus dsNav (some idSetTaskNav) "approved" = NavResult.unsupportedIdSet ∧
    goToMarked dsNav (some rangeTaskNav) = NavResult.fetchAt 1 ∧
    goToMarked dsNav (some idSetTaskNav) = NavResult.unsupportedIdSet ∧
    goToNextPending dsNav (some rangeTaskNav) = NavResult.fetchAt 0 ∧
    goToNextPending dsNav (some idSetTaskNav) = NavResult.unsupportedIdSet ∧
    NavResult.fetchAt 1 ≠ NavResult.unsupportedIdSet := by
  decide

/-- C4 amended: when the active task carries an id set, none of the three
jump operations ever navigates — each reports the id-set mode unsupported,
or that no item matched. -/
theorem idset_tasks_never_navigate (dataset : List ReviewItem)
    (t : ReviewTask) (status : String) (hid : t.item_ids.isSome) :
    (goToStatus dataset (some t) status = NavResult.unsupportedIdSet ∨
      goToStatus dataset (some t) status = NavResult.noneFound) ∧
    (goToMarked dataset (some t) = NavResult.unsupportedIdSet ∨
      goToMarked dataset (some t) = NavResult.noneFound) ∧
    (goToNextPending dataset (some t) = NavResult.unsupportedIdSet ∨
      goToNextPending dataset (some t) = NavResult.noneFound) := by
  obtain ⟨ids, hids⟩ := Option.isSome_iff_exists.mp hid
  refine ⟨?_, ?_, ?_⟩
  · unfold goToStatus
    cases itemsListFirst dataset (some status) none with
    | none => exact Or.inr rfl
    | some item => simp [hids]
  · unfold goToMarked
    cases itemsListFirst dataset none (some true) with
    | none => exact Or.inr rfl
    | some item => simp [hids]
  · unfold goToNextPending
    cases itemsListFirst dataset (some "pending") none with
    | none => exact Or.inr rfl
    | some item => simp [hids]

/-- Witness for the amended C4 at the concrete id-set task. -/
theorem idset_tasks_never_navigate_witness :
    idSetTaskNav.item_ids.isSome = true ∧
    (goToStatus dsNav (some idSetTaskNav) "approved" = NavResult.unsupportedIdSet ∨
      goToStatus dsNav (some idSetTaskNav) "approved" = NavResult.noneFound) :=
  ⟨by decide, (idset_tasks_never_navigate dsNav idSetTaskNav "approved" (by decide)).1⟩

/-- Dataset for the C5 failing input: the only pending item (position 1)
lies before the task's range 2..3, whose items are all approved. -/
def dsPend : List ReviewItem :=
  [⟨11, 1, "pending", false⟩, ⟨12, 2, "approved", false⟩, ⟨13, 3, "approved", false⟩]

/-- The active range task over positions 2..3 of `dsPend`. -/
def rangeTaskPend : ReviewTask := ⟨2, 3, none⟩

/-- C5: because the `taskId` argument is dropped by `itemsApi.list`, the
pending scan is dataset-wide; with no pending item inside the task's range
the code does not report "none pending" but jumps to relative position
`1 - 2 + 1 = 0`, outside the selection. -/
theorem next_pending_escapes_task_selection :
    goToNextPending dsPend (some rangeTaskPend) = NavResult.fetchAt 0 ∧
    (∀ it ∈ dsPend, rangeTaskPend.item_start ≤ it.seq_num →
      it.seq_num ≤ rangeTaskPend.item_end → it.status ≠ "pending") := by
  decide

end Revdata

namespace Revdata

/-- A write to an item issued by `AuthReviewPage` through `publicItemsApi`
(api.ts 186-197). -/
inductive WriteCall where
  | update
  | approve
  | reject
  deriving Repr, DecidableEq

/-- The editing-relevant state of `AuthReviewPage`: the session permission,
whether an item is loaded (`currentItem`), and which field (if any) is
being edited. -/
structure PageState where
  permission : String
  hasItem : Bool
  editingField : Option String
  deriving Repr, DecidableEq

/-- The user events `AuthReviewPage` wires to its handlers: the edit
buttons and focus hotkeys (`startEdit`), the approve/reject buttons and
hotkeys, the save button/hotkey, cancel. -/
inductive PageEvent where
  | startEvent (field : String)
  | approveClick
  | rejectClick
  | saveClick
  | cancelClick
  deriving Repr, DecidableEq

/-- One handler invocation of `AuthReviewPage`: the next state and the item
writes it issues.
* `startEvent`: `startEdit` (LoginPage.tsx 450-457) refuses with a warning
  when `session.permission === 'view'`, else enters edit mode.
* `approveClick`/`rejectClick`: `handleApprove`/`handleReject`
  (LoginPage.tsx 534-538, 586-590) return before any request when there is
  no current item or the permission is `view`; otherwise they post the
  approve/reject write.
* `saveClick`: `handleSave` (LoginPage.tsx 460-468) is reachable only while
  a field is being edited — the save hotkey is enabled by `!!editingField`
  (LoginPage.tsx 666-669) and the card renders its save button only under
  `isEditing`; the handler itself returns when no item is loaded, else puts
  the update.
* `cancelClick`: `handleCancel` (LoginPage.tsx 528-531) clears the editing
  state, no write. -/
def pageStep (st : PageState) : PageEvent → PageState × List WriteCall
  | PageEvent.startEvent f =>
    if st.permission = "view" then (st, [])
    else ({ st with editingField := some f }, [])
  | PageEvent.approveClick =>
    if st.hasItem = false ∨ st.permission = "view" then (st, [])
    else (st, [WriteCall.approve])
  | PageEvent.rejectClick =>
    if st.hasItem = false ∨ st.permission = "view" then (st, [])
    else (st, [WriteCall.reject])
  | PageEvent.saveClick =>
    if st.editingField = none then (st, [])
    else if st.hasItem = false then (st, [])
    else ({ st with editingField := none }, [WriteCall.update])
  | PageEvent.cancelClick => ({ st with editingField := none }, [])

/-- Running a sequence of events, accumulating all issued writes. -/
def pageRun (st : PageState) : List PageEvent → PageState × List WriteCall
  | [] => (st, [])
  | e :: es =>
    ((pageRun (pageStep st e).1 es).1,
      (pageStep st e).2 ++ (pageRun (pageStep st e).1 es).2)

/-- Under `view` permission a single handler invocation issues no write,
keeps the page out of edit mode, and leaves the permission unchanged. -/
theorem pageStep_view (st : PageState) (e : PageEvent)
    (hp : st.permission = "view") (he : st.editingField = none) :
    (pageStep st e).2 = [] ∧ (pageStep st e).1.permission = "view" ∧
      (pageStep st e).1.editingField = none := by
  cases e <;> simp [pageStep, hp, he]

/-- C7: under a `view` session, every sequence of page events issues no
item write at all and never enters edit mode. -/
theorem view_permission_never_writes (st : PageState) (evs : List PageEvent)
    (hp : st.permission = "view") (he : st.editingField = none) :
    (pageRun st evs).2 = [] ∧ (pageRun st evs).1.editingField = none := by
  induction evs generalizing st with
  | nil => exact ⟨rfl, he⟩
  | cons e es ih =>
    obtain ⟨hw, hp', he'⟩ := pageStep_view st e hp he
    obtain ⟨hw', he''⟩ := ih (pageStep st e).1 hp' he'
    exact ⟨by simp [pageRun, hw, hw'], by simp [pageRun, he'']⟩

/-- A loaded page under a `view`-only session. -/
def viewPageState : PageState := ⟨"view", true, none⟩

/-- A session of events trying to edit, approve, save and reject. -/
def viewDemoEvents : List PageEvent :=
  [PageEvent.startEvent "q_0", PageEvent.approveClick, PageEvent.saveClick,
    PageEvent.rejectClick, PageEvent.cancelClick]

/-- Witness for C7: the demo event sequence under `view` issues no write. -/
theorem view_permission_never_writes_witness :
    viewPageState.permission = "view" ∧ viewPageState.editingField = none ∧
    (pageRun viewPageState viewDemoEvents).2 = [] :=
  ⟨rfl, rfl, (view_permission_never_writes viewPageState viewDemoEvents rfl rfl).1⟩

end Revdata

namespace Revdata

/-- Modelled from the spec: the backend `SessionCapacityManager` is not
under `src/` — the frontend only reaches it through `authCodeApi.verify`
and `authCodeApi.leave` (api.ts 164-169).  Per spec §3/§4.2 a grant carries
an active flag, an expiration, the `max_online`/`current_online` pair, the
`max_verify_count`/`verify_count` pair, and the set of live sessions. -/
structure GrantState where
  is_active : Bool
  expired : Bool
  max_online : Int
  current_online : Int
  max_verify_count : Int
  verify_count : Int
  sessions : List String
  deriving Repr, DecidableEq

/-- Modelled from the spec (§4.2 `Verify`): the five admission checks and
the two counter increments plus session creation form one atomic unit per
grant; a failed check leaves the grant untouched.  (The existence check is
the grant state being present at all.) -/
def verifyStep (g : GrantState) (tok : String) : GrantState :=
  if g.is_active = true ∧ g.expired = false ∧
      g.verify_count < g.max_verify_count ∧ g.current_online < g.max_online then
    { g with
        verify_count := g.verify_count + 1
        current_online := g.current_online + 1
        sessions := tok :: g.sessions }
  else g

/-- Modelled from the spec (§4.2 `Leave`): atomically decrements
`current_online` exactly once for a live session; releasing an unknown or
already-released session is an idempotent no-op. -/
def leaveStep (g : GrantState) (tok : String) : GrantState :=
  if tok ∈ g.sessions then
    { g with
        current_online := g.current_online - 1
        sessions := g.sessions.erase tok }
  else g

/-- One atomic operation against a grant.  Per spec §5, admission is
serialized per grant, so any concurrent history of Verify/Leave calls is an
interleaving, i.e. a sequence of these atomic steps. -/
inductive GrantOp where
  | verify (tok : String)
  | leave (tok : String)

/-- Running a sequence of atomic operations against a grant. -/
def grantRun (g : GrantState) : List GrantOp → GrantState
  | [] => g
  | GrantOp.verify tok :: ops => grantRun (verifyStep g tok) ops
  | GrantOp.leave tok :: ops => grantRun (leaveStep g tok) ops

/-- The capacity invariant, strengthened with the bookkeeping fact that
`current_online` counts the live sessions. -/
def GrantInv (g : GrantState) : Prop :=
  g.current_online = (g.sessions.length : Int) ∧ g.current_online ≤ g.max_online

/-- `Verify` preserves the invariant and the ceiling. -/
theorem verifyStep_inv (g : GrantState) (tok : String) (h : GrantInv g) :
    GrantInv (verifyStep g tok) ∧ (verifyStep g tok).max_online = g.max_online := by
  obtain ⟨hcount, hle⟩ := h
  unfold GrantInv verifyStep
  by_cases hc : g.is_active = true ∧ g.expired = false ∧
      g.verify_count < g.max_verify_count ∧ g.current_online < g.max_online
  · have hlt := hc.2.2.2
    simp only [if_pos hc]
    refine ⟨⟨?_, ?_⟩, trivial⟩
    · show g.current_online + 1 = ((tok :: g.sessions).length : Int)
      rw [hcount]
      simp only [List.length_cons]
      push_cast
      ring
    · show g.current_online + 1 ≤ g.max_online
      omega
  · simp only [if_neg hc]
    exact ⟨⟨hcount, hle⟩, trivial⟩

/-- `Leave` preserves the invariant and the ceiling. -/
theorem leaveStep_inv (g : GrantState) (tok : String) (h : GrantInv g) :
    GrantInv (leaveStep g tok) ∧ (leaveStep g tok).max_online = g.max_online := by
  obtain ⟨hcount, hle⟩ := h
  unfold GrantInv leaveStep
  by_cases hm : tok ∈ g.sessions
  · have hpos : 0 < g.sessions.length := List.length_pos_of_mem hm
    have herase : (g.sessions.erase tok).length = g.sessions.length - 1 :=
      List.length_erase_of_mem hm
    simp only [if_pos hm]
    refine ⟨⟨?_, ?_⟩, trivial⟩
    · show g.current_online - 1 = ((g.sessions.erase tok).length : Int)
      rw [herase, hcount]
      omega
    · show g.current_online - 1 ≤ g.max_online
      omega
  · simp only [if_neg hm]
    exact ⟨⟨hcount, hle⟩, trivial⟩

/-- The invariant is preserved along any operation sequence. -/
theorem grantRun_inv (ops : List GrantOp) (g : GrantState) (h : GrantInv g) :
    GrantInv (grantRun g ops) ∧ (grantRun g ops).max_online = g.max_online := by
  induction ops generalizing g with
  | nil => exact ⟨h, rfl⟩
  | cons op ops ih =>
    cases op with
    | verify tok =>
      obtain ⟨h', hmax⟩ := verifyStep_inv g tok h
      obtain ⟨h'', hmax'⟩ := ih (verifyStep g tok) h'
      exact ⟨h'', by rw [grantRun]; omega⟩
    | leave tok =>
      obtain ⟨h', hmax⟩ := leaveStep_inv g tok h
      obtain ⟨h'', hmax'⟩ := ih (leaveStep g tok) h'
      exact ⟨h'', by rw [grantRun]; omega⟩

/-- A freshly created grant with `max_online = k` and
`max_verify_count = m`: active, not expired, no sessions. -/
def initGrant (k m : Int) : GrantState :=
  { is_active := true
    expired := false
    max_online := k
    current_online := 0
    max_verify_count := m
    verify_count := 0
    sessions := [] }

/-- C1: along every sequence of atomic Verify/Leave operations against a
grant with `max_online = k`, `current_online` never exceeds `k` and never
goes negative. -/
theorem capacity_invariant (k m : Int) (hk : 0 ≤ k) (ops : List GrantOp) :
    0 ≤ (grantRun (initGrant k m) ops).current_online ∧
      (grantRun (initGrant k m) ops).current_online ≤ k := by
  have hinit : GrantInv (initGrant k m) := ⟨by simp [initGrant], by simpa [initGrant] using hk⟩
  obtain ⟨⟨hcount, hle⟩, hmax⟩ := grantRun_inv ops (initGrant k m) hinit
  constructor
  · rw [hcount]
    positivity
  · exact le_of_le_of_eq hle hmax

/-- Concrete operation history for the C1 witness: two admissions against
capacity 1 with a release in between and a double release at the end. -/
def demoOps : List GrantOp :=
  [GrantOp.verify "a", GrantOp.verify "b", GrantOp.leave "a",
    GrantOp.verify "c", GrantOp.leave "c", GrantOp.leave "c"]

/-- Witness for C1 at `max_online = 1`, `max_verify_count = 2`. -/
theorem capacity_invariant_witness :
    (0 : Int) ≤ 1 ∧
    (0 ≤ (grantRun (initGrant 1 2) demoOps).current_online ∧
      (grantRun (initGrant 1 2) demoOps).current_online ≤ 1) :=
  ⟨by decide, capacity_invariant 1 2 (by decide) demoOps⟩

end Revdata

namespace Revdata

/-- An HTTP request as the client builds it: path, request (query)
parameters, and an optional JSON object body given as key/value pairs. -/
structure HttpRequest where
  path : String
  queryParams : List (String × String)
  jsonBody : Option (List (String × String))
  deriving Repr, DecidableEq

/-- `authCodeApi.leave` (api.ts 167-169): POST to
`/auth-codes/session/leave` under the `/api/v1` base, the token passed as
the request parameter `session_token`, request body `null`. -/
def authCodeApiLeave (tok : String) : HttpRequest :=
  { path := "/api/v1/auth-codes/session/leave"
    queryParams := [("session_token", tok)]
    jsonBody := none }

/-- `handleBeforeUnload` (LoginPage.tsx 319-327): `navigator.sendBeacon`
posts the JSON object holding `session_token` as the request body to the
same endpoint, with no request parameters. -/
def sendBeaconLeave (tok : String) : HttpRequest :=
  { path := "/api/v1/auth-codes/session/leave"
    queryParams := []
    jsonBody := some [("session_token", tok)] }

/-- The session stores `AuthReviewPage` keeps: the React state `session`
(set by every success path) and the ref `sessionRef.current`, which only
the cached-session branch (LoginPage.tsx 302) and the 401/403 re-verify
paths (LoginPage.tsx 386, 493, 558, 610) assign — the fresh-verify success
path (LoginPage.tsx 276-285) calls `setSession` but never writes the ref.
Each holds the session token when populated. -/
structure SessionStores where
  sessionState : Option String
  sessionRef : Option String
  deriving Repr, DecidableEq

/-- The stores after the fresh-verify success path (LoginPage.tsx
276-285): `setSession(res.data)` only; `sessionRef.current` stays null. -/
def freshVerifyStores (tok : String) : SessionStores :=
  { sessionState := some tok, sessionRef := none }

/-- The stores after the cached-session branch (LoginPage.tsx 300-302):
`setSession(cachedSession)` and `sessionRef.current = cachedSession`. -/
def cachedSessionStores (tok : String) : SessionStores :=
  { sessionState := some tok, sessionRef := some tok }

/-- `handleExit` (LoginPage.tsx 639-645): guarded on
`session?.session_token` (the React state), then `authCodeApi.leave`. -/
def handleExitLeave (st : SessionStores) : Option HttpRequest :=
  st.sessionState.map authCodeApiLeave

/-- The effect cleanup on unmount (LoginPage.tsx 331-337): guarded on
`sessionRef.current?.session_token`, then `authCodeApi.leave`. -/
def unmountLeave (st : SessionStores) : Option HttpRequest :=
  st.sessionRef.map authCodeApiLeave

/-- `handleBeforeUnload` on page unload (LoginPage.tsx 319-327): guarded
on `sessionRef.current?.session_token`, then the `sendBeacon` post. -/
def beforeUnloadLeave (st : SessionStores) : Option HttpRequest :=
  st.sessionRef.map sendBeaconLeave

/-- C8: after a fresh verify the unmount and page-unload paths issue no
Leave at all (`sessionRef.current` was never assigned), and even in the
cached flow the unload beacon carries no `session_token` request
parameter, only a JSON body — twice against the claim that every
disconnect path sends a Leave in the parameter form of the explicit leave
call. -/
theorem fresh_verify_flow_loses_unload_leave :
    handleExitLeave (freshVerifyStores "t") = some (authCodeApiLeave "t") ∧
    unmountLeave (freshVerifyStores "t") = none ∧
    beforeUnloadLeave (freshVerifyStores "t") = none ∧
    unmountLeave (cachedSessionStores "t") = some (authCodeApiLeave "t") ∧
    beforeUnloadLeave (cachedSessionStores "t") = some (sendBeaconLeave "t") ∧
    (sendBeaconLeave "t").queryParams = [] ∧
    (authCodeApiLeave "t").queryParams = [("session_token", "t")] := by
  decide

end Revdata

namespace Revdata

/-- JS `x || d` for an optional numeric form value: `undefined` and `0`
are falsy. -/
def jsOrDefault (v : Option Int) (d : Int) : Int :=
  match v with
  | none => d
  | some x => if x = 0 then d else x

/-- The minimum of a list of ids, `Math.min(...itemIds)` on a non-empty
list. -/
def listMin (ids : List Int) : Int :=
  ids.foldl min (ids.headD 0)

/-- The values of the creation form of `AuthCodeModal` (AuthCodeModal.tsx
329-358): `item_start`/`item_end` are required `InputNumber`s with
`min=1` in range mode and hidden fields with initial value 0 in id mode;
the two limits are `InputNumber`s with `min=1` that the user may clear. -/
structure CreateFormValues where
  item_start : Int
  item_end : Int
  max_online : Option Int
  max_verify_count : Option Int
  deriving Repr, DecidableEq

/-- The grant-creation request body sent to `authCodeApi.create`. -/
structure CreatePayload where
  dataset_id : Int
  item_start : Int
  item_end : Int
  item_ids : Option (List Int)
  max_online : Int
  max_verify_count : Int
  deriving Repr, DecidableEq

/-- The request fields `AuthCodeModal.handleCreate` (AuthCodeModal.tsx
106-112) always sets: the form range, `max_online: values.max_online || 1`
and `max_verify_count: values.max_verify_count || 10`. -/
def createBase (datasetId : Int) (v : CreateFormValues) : CreatePayload :=
  { dataset_id := datasetId
    item_start := v.item_start
    item_end := v.item_end
    item_ids := none
    max_online := jsOrDefault v.max_online 1
    max_verify_count := jsOrDefault v.max_verify_count 10 }

/-- `AuthCodeModal.handleCreate` (AuthCodeModal.tsx 103-133): in id-set
mode it attaches the id list, sets `item_start` to `Math.min(...itemIds)`,
then resets `item_start`/`item_end` to 0 when the corresponding form value
is falsy (the hidden fields carry initial value 0). -/
def handleCreate (datasetId : Int) (itemIds : Option (List Int))
    (v : CreateFormValues) : CreatePayload :=
  match itemIds with
  | some ids =>
    if 0 < ids.length then
      { createBase datasetId v with
          item_ids := some ids
          item_start := if v.item_start = 0 then 0 else listMin ids
          item_end := if v.item_end = 0 then 0 else v.item_end }
    else createBase datasetId v
  | none => createBase datasetId v

/-- A range-mode form entry the form validation accepts (each bound at
least 1) whose range is inverted. -/
def invertedRangeForm : CreateFormValues :=
  { item_start := 5, item_end := 2, max_online := none, max_verify_count := none }

/-- C9 counterexample: the accepted form entry `start=5, end=2` produces a
range request with `item_start > item_end` — nothing enforces
`item_start ≤ item_end`. -/
theorem create_allows_inverted_range :
    1 ≤ invertedRangeForm.item_start ∧ 1 ≤ invertedRangeForm.item_end ∧
    (handleCreate 1 none invertedRangeForm).item_ids = none ∧
    (handleCreate 1 none invertedRangeForm).item_start = 5 ∧
    (handleCreate 1 none invertedRangeForm).item_end = 2 ∧
    ¬ (handleCreate 1 none invertedRangeForm).item_start ≤
        (handleCreate 1 none invertedRangeForm).item_end := by
  decide

/-- C9 amended: every grant-creation request carries positive limits
(`max_online ≥ 1`, `max_verify_count ≥ 1`, defaulting to 1 and 10 when the
user leaves them unset), a non-empty id list in id-set mode, and in range
mode `item_start ≥ 1` and `item_end ≥ 1` as enforced per field — but not
`item_start ≤ item_end`. -/
theorem create_payload_amended (datasetId : Int) (itemIds : Option (List Int))
    (v : CreateFormValues)
    (hmo : ∀ m, v.max_online = some m → 1 ≤ m)
    (hmv : ∀ m, v.max_verify_count = some m → 1 ≤ m)
    (hrange : itemIds = none → 1 ≤ v.item_start ∧ 1 ≤ v.item_end)
    (hidne : ∀ ids, itemIds = some ids → ids ≠ []) :
    1 ≤ (handleCreate datasetId itemIds v).max_online ∧
    1 ≤ (handleCreate datasetId itemIds v).max_verify_count ∧
    (v.max_online = none → (handleCreate datasetId itemIds v).max_online = 1) ∧
    (v.max_verify_count = none →
      (handleCreate datasetId itemIds v).max_verify_count = 10) ∧
    (itemIds = none →
      (handleCreate datasetId itemIds v).item_ids = none ∧
      1 ≤ (handleCreate datasetId itemIds v).item_start ∧
      1 ≤ (handleCreate datasetId itemIds v).item_end) ∧
    (∀ ids, itemIds = some ids →
      (handleCreate datasetId itemIds v).item_ids = some ids ∧ ids ≠ []) := by
  have hbase_mo : 1 ≤ jsOrDefault v.max_online 1 := by
    cases h : v.max_online with
    | none => simp [jsOrDefault, h]
    | some m =>
      have hm := hmo m h
      by_cases hz : m = 0
      · simp [jsOrDefault, h, hz]
      · simp [jsOrDefault, h, hz]
        omega
  have hbase_mv : 1 ≤ jsOrDefault v.max_verify_count 10 := by
    cases h : v.max_verify_count with
    | none => simp [jsOrDefault, h]
    | some m =>
      have hm := hmv m h
      by_cases hz : m = 0
      · simp [jsOrDefault, h, hz]
      · simp [jsOrDefault, h, hz]
        omega
  have hmo_none : v.max_online = none → jsOrDefault v.max_online 1 = 1 := by
    intro h
    simp [jsOrDefault, h]
  have hmv_none : v.max_verify_count = none → jsOrDefault v.max_verify_count 10 = 10 := by
    intro h
    simp [jsOrDefault, h]
  cases itemIds with
  | none =>
    exact ⟨hbase_mo, hbase_mv, hmo_none, hmv_none,
      fun _ => ⟨rfl, (hrange rfl).1, (hrange rfl).2⟩,
      fun ids h => absurd h (by simp)⟩
  | some ids =>
    have hne : ids ≠ [] := hidne ids rfl
    have hlen : 0 < ids.length := List.length_pos.mpr hne
    have hred : handleCreate datasetId (some ids) v =
        { createBase datasetId v with
            item_ids := some ids
            item_start := if v.item_start = 0 then 0 else listMin ids
            item_end := if v.item_end = 0 then 0 else v.item_end } := by
      simp only [handleCreate, if_pos hlen]
    rw [hred]
    exact ⟨hbase_mo, hbase_mv, hmo_none, hmv_none,
      fun h => absurd h (by simp),
      fun ids' h => ⟨congrArg some (by injection h), hidne ids' h⟩⟩

/-- A range-mode form entry with all fields left at their defaults. -/
def defaultForm : CreateFormValues :=
  { item_start := 1, item_end := 100, max_online := none, max_verify_count := none }

/-- Witness for the amended C9: defaults yield limits 1 and 10. -/
theorem create_payload_amended_witness :
    defaultForm.max_online = none ∧
    1 ≤ (handleCreate 7 none defaultForm).max_online ∧
    1 ≤ (handleCreate 7 none defaultForm).max_verify_count :=
  ⟨rfl,
    (create_payload_amended 7 none defaultForm
      (fun m h => by simp [defaultForm] at h)
      (fun m h => by simp [defaultForm] at h)
      (fun _ => by constructor <;> decide)
      (fun ids h => by simp at h)).1,
    (create_payload_amended 7 none defaultForm
      (fun m h => by simp [defaultForm] at h)
      (fun m h => by simp [defaultForm] at h)
      (fun _ => by constructor <;> decide)
      (fun ids h => by simp at h)).2.1⟩

end Revdata

namespace Revdata

/-- The action the mount effect of `AuthReviewPage` takes (LoginPage.tsx
296-314): reuse the cached session when `sessionStorage` holds a value that
parses, call `verify()` when parsing throws or nothing is cached. -/
inductive InitAction where
  | useCached (s : AuthSession)
  | callVerify
  deriving Repr, DecidableEq

/-- The mount decision.  The outer `Option` is the result of
`sessionStorage.getItem`; the inner `Option` is the outcome of
`JSON.parse` (`none` models the exception caught at LoginPage.tsx 309). -/
def initAction (cached : Option (Option AuthSession)) : InitAction :=
  match cached with
  | some (some s) => InitAction.useCached s
  | some none => InitAction.callVerify
  | none => InitAction.callVerify

/-- How many `authCodeApi.verify` calls the chosen action performs. -/
def InitAction.verifyCalls : InitAction → Nat
  | InitAction.useCached _ => 0
  | InitAction.callVerify => 1

/-- Effect of the mount action on the backend grant: reusing the cache
touches the grant not at all; `verify()` runs one atomic Verify step. -/
def initEffect (g : GrantState) (tok : String) : InitAction → GrantState
  | InitAction.useCached _ => g
  | InitAction.callVerify => verifyStep g tok

/-- C10: a cached session that parses is reused as-is with zero Verify
calls, leaving the grant's counters untouched; a cached value that fails to
parse, or no cached value, falls back to `verify()`. -/
theorem cached_session_reused_without_verify (s : AuthSession) (g : GrantState)
    (tok : String) :
    initAction (some (some s)) = InitAction.useCached s ∧
    (initAction (some (some s))).verifyCalls = 0 ∧
    initEffect g tok (initAction (some (some s))) = g ∧
    initAction (some none) = InitAction.callVerify ∧
    initAction none = InitAction.callVerify :=
  ⟨rfl, rfl, rfl, rfl, rfl⟩

end Revdata
